import Mathlib

/-!
Shallow embedding of the toposphere backend (Django REST):
accounts (registration, password policy, account deletion),
notes and todos (todo lists with nested items), with per-user
ownership scoping of every list/retrieve/update/delete operation.

Conventions of the embedding:
- the relational store is a `DB` record of rows, one list per model;
- primary keys are `Nat`, assigned from `DB.nextId` on create;
- timestamps are `Nat` instants passed in by the caller (the code
  reads the clock via django auto_now / timezone.now);
- a request aborted by an exception (NotFound, ValidationError)
  returns `Except.error` and produces no new store, matching the
  fact that the exception fires before any mutation;
- DRF serializers are modelled by input records whose writable
  fields are exactly the serializer's non-read-only `fields`;
  client-supplied values for fields outside that set are carried
  in the input record but never read, matching DRF silently
  dropping unknown or read-only keys.
-/

/-- Case-sensitive test that `needle` starts `haystack` (character lists). -/
def leadMatch : List Char → List Char → Bool
  | [], _ => true
  | _ :: _, [] => false
  | a :: as, b :: bs => a == b && leadMatch as bs

/-- Case-sensitive test that `needle` occurs contiguously inside `haystack`. -/
def subMatch (needle : List Char) : List Char → Bool
  | [] => needle.isEmpty
  | c :: rest => leadMatch needle (c :: rest) || subMatch needle rest

/-- Django `__icontains`: case-insensitive substring containment. -/
def icontains (hay needle : String) : Bool :=
  subMatch (needle.data.map Char.toLower) (hay.data.map Char.toLower)

/-- Insert one element into a list kept in descending `created` order. -/
def insertDesc (created : α → Nat) (x : α) : List α → List α
  | [] => [x]
  | y :: ys => if created y ≤ created x then x :: y :: ys else y :: insertDesc created x ys

/-- Django Meta `ordering = [-created_at]`: sort rows newest-first. -/
def sortByCreatedDesc (created : α → Nat) : List α → List α
  | [] => []
  | x :: xs => insertDesc created x (sortByCreatedDesc created xs)

/-- accounts: a user row (email, stored password credential, names). -/
structure User where
  id : Nat
  email : String
  password : String
  first_name : String
  last_name : String
  deriving Repr, DecidableEq

/-- notes/models.py Note: title, content, timestamps, owning user FK. -/
structure Note where
  id : Nat
  title : String
  content : String
  created_at : Nat
  updated_at : Nat
  user : Nat
  deriving Repr, DecidableEq

/-- todos/models.py TodoList: owning user FK, title, description, timestamps. -/
structure TodoList where
  id : Nat
  user : Nat
  title : String
  description : String
  created_at : Nat
  updated_at : Nat
  deriving Repr, DecidableEq

/-- todos/models.py TodoItem: parent list FK, title, description,
completion flag (default false), timestamps, nullable completed_at. -/
structure TodoItem where
  id : Nat
  todo_list : Nat
  title : String
  description : String
  is_completed : Bool
  created_at : Nat
  updated_at : Nat
  completed_at : Option Nat
  deriving Repr, DecidableEq

/-- The relational store: one row list per model, plus the pk counter. -/
structure DB where
  users : List User
  notes : List Note
  todoLists : List TodoList
  todoItems : List TodoItem
  nextId : Nat
  deriving Repr, DecidableEq

/-- Request-level failures: DRF NotFound (404), PermissionDenied (403),
ValidationError (400) keyed by field names. -/
inductive ApiError where
  | NotFound
  | Forbidden
  | ValidationError (fields : List String)
  deriving Repr, DecidableEq

/-- NoteSerializer writable fields (`title`, `content`); `user` is not in
`fields`, so a client-supplied value is carried but never applied.
`Option` marks which keys the request body supplies (partial update). -/
structure NoteInput where
  title : Option String := none
  content : Option String := none
  user : Option Nat := none
  deriving Repr, DecidableEq

/-- Apply a note request body through NoteSerializer onto an instance:
only `title` and `content` are writable; `updated_at` is auto_now. -/
def apply_note_input (n : Note) (inp : NoteInput) (now : Nat) : Note :=
  { n with title := inp.title.getD n.title,
           content := inp.content.getD n.content,
           updated_at := now }

/-- DRF CharField validation for Note: `title` and `content` are required
non-blank; a supplied blank value is a field-keyed ValidationError. -/
def note_input_errors (inp : NoteInput) : List String :=
  (if inp.title = some "" then ["title"] else []) ++
  (if inp.content = some "" then ["content"] else [])

/-- NoteListCreateView.get_queryset: the requester's notes, optionally
filtered by icontains over title or content (skipped when the `search`
query parameter is absent or falsy), in Meta ordering (-created_at). -/
def note_list_queryset (db : DB) (u : Nat) (search : Option String) : List Note :=
  let queryset := db.notes.filter (fun n => n.user == u)
  let queryset := match search with
    | none => queryset
    | some s =>
        if s.isEmpty then queryset
        else queryset.filter (fun n => icontains n.title s || icontains n.content s)
  sortByCreatedDesc Note.created_at queryset

/-- NoteListCreateView create: required fields validated, then
perform_create saves with `user` taken from the request context. -/
def note_create (db : DB) (u : Nat) (title content : String) (now : Nat) :
    Except ApiError (DB × Note) :=
  if title = "" ∨ content = "" then
    .error (.ValidationError ((if title = "" then ["title"] else []) ++
                              (if content = "" then ["content"] else [])))
  else
    let n : Note := { id := db.nextId, title := title, content := content,
                      created_at := now, updated_at := now, user := u }
    .ok ({ db with notes := db.notes ++ [n], nextId := db.nextId + 1 }, n)

/-- NoteDetailView get_object: look up pk inside the ownership-scoped
queryset `Note.objects.filter(user=request.user)`; absence is a 404. -/
def note_get_object (db : DB) (u : Nat) (pk : Nat) : Option Note :=
  (db.notes.filter (fun n => n.user == u)).find? (fun n => n.id == pk)

/-- NoteDetailView GET. -/
def note_retrieve (db : DB) (u pk : Nat) : Except ApiError Note :=
  match note_get_object db u pk with
  | some n => .ok n
  | none => .error .NotFound

/-- NoteDetailView PUT/PATCH: 404 from the scoped lookup, field
validation, then the serializer writes the writable fields back. -/
def note_update (db : DB) (u pk : Nat) (inp : NoteInput) (now : Nat) :
    Except ApiError (DB × Note) :=
  match note_get_object db u pk with
  | none => .error .NotFound
  | some n =>
      if note_input_errors inp ≠ [] then .error (.ValidationError (note_input_errors inp))
      else
        let n2 := apply_note_input n inp now
        .ok ({ db with notes := db.notes.map (fun m => if m.id == pk then n2 else m) }, n2)

/-- NoteDetailView DELETE: 404 from the scoped lookup, then row removal. -/
def note_delete (db : DB) (u pk : Nat) : Except ApiError DB :=
  match note_get_object db u pk with
  | none => .error .NotFound
  | some _ => .ok { db with notes := db.notes.filter (fun m => m.id != pk) }

/-- TodoListSerializer writable fields (`title`, `description`); `user`
is not in `fields` and `items` is read-only, so a client-supplied owner
is carried but never applied. -/
structure TodoListInput where
  title : Option String := none
  description : Option String := none
  user : Option Nat := none
  deriving Repr, DecidableEq

/-- Apply a todo-list request body through TodoListSerializer:
`title` and `description` writable, `updated_at` auto_now. -/
def apply_todolist_input (l : TodoList) (inp : TodoListInput) (now : Nat) : TodoList :=
  { l with title := inp.title.getD l.title,
           description := inp.description.getD l.description,
           updated_at := now }

/-- TodoList field validation: `title` required non-blank;
`description` has blank=True so the empty string is accepted. -/
def todolist_input_errors (inp : TodoListInput) : List String :=
  if inp.title = some "" then ["title"] else []

/-- TodoListListCreateView.get_queryset: the requester's lists in Meta
ordering. The view reads no `search` query parameter; the argument is
carried to model the request but is not consulted. -/
def todolist_list (db : DB) (u : Nat) (_search : Option String) : List TodoList :=
  sortByCreatedDesc TodoList.created_at (db.todoLists.filter (fun l => l.user == u))

/-- Modelled from the spec, for comparison with `todolist_list`: the
spec's words for the todo-list listing, where the `search` parameter
filters by case-insensitive substring over title and description. -/
def todolist_list_spec (db : DB) (u : Nat) (search : Option String) : List TodoList :=
  let queryset := db.todoLists.filter (fun l => l.user == u)
  let queryset := match search with
    | none => queryset
    | some s =>
        if s.isEmpty then queryset
        else queryset.filter (fun l => icontains l.title s || icontains l.description s)
  sortByCreatedDesc TodoList.created_at queryset

/-- TodoListListCreateView create: perform_create saves with the
requesting user as owner. -/
def todolist_create (db : DB) (u : Nat) (title description : String) (now : Nat) :
    Except ApiError (DB × TodoList) :=
  if title = "" then .error (.ValidationError ["title"])
  else
    let l : TodoList := { id := db.nextId, user := u, title := title,
                          description := description, created_at := now, updated_at := now }
    .ok ({ db with todoLists := db.todoLists ++ [l], nextId := db.nextId + 1 }, l)

/-- TodoListDetailView get_object: pk inside
`TodoList.objects.filter(user=request.user)`. -/
def todolist_get_object (db : DB) (u : Nat) (pk : Nat) : Option TodoList :=
  (db.todoLists.filter (fun l => l.user == u)).find? (fun l => l.id == pk)

/-- TodoListDetailView GET. -/
def todolist_retrieve (db : DB) (u pk : Nat) : Except ApiError TodoList :=
  match todolist_get_object db u pk with
  | some l => .ok l
  | none => .error .NotFound

/-- TodoListDetailView PUT/PATCH. -/
def todolist_update (db : DB) (u pk : Nat) (inp : TodoListInput) (now : Nat) :
    Except ApiError (DB × TodoList) :=
  match todolist_get_object db u pk with
  | none => .error .NotFound
  | some l =>
      if todolist_input_errors inp ≠ [] then
        .error (.ValidationError (todolist_input_errors inp))
      else
        let l2 := apply_todolist_input l inp now
        .ok ({ db with todoLists := db.todoLists.map (fun m => if m.id == pk then l2 else m) }, l2)

/-- TodoListDetailView DELETE: removing the list row fires the
`on_delete=CASCADE` of TodoItem.todo_list, removing every item of
the list in the same statement. -/
def todolist_delete (db : DB) (u pk : Nat) : Except ApiError DB :=
  match todolist_get_object db u pk with
  | none => .error .NotFound
  | some _ =>
      .ok { db with todoLists := db.todoLists.filter (fun m => m.id != pk),
                    todoItems := db.todoItems.filter (fun i => i.todo_list != pk) }

/-- TodoItemSerializer writable fields (`title`, `description`,
`is_completed`); `completed_at` is read-only and `todo_list` is not in
`fields`, so client-supplied values for them are carried but never
applied. `is_completed` is `Option Bool`: `some` means the key is
present in the request body (a JSON boolean). -/
structure TodoItemInput where
  title : Option String := none
  description : Option String := none
  is_completed : Option Bool := none
  todo_list : Option Nat := none
  completed_at : Option (Option Nat) := none
  deriving Repr, DecidableEq

/-- Apply an item request body through TodoItemSerializer: `title`,
`description` and `is_completed` writable, `updated_at` auto_now;
`completed_at` untouched unless perform_update overrides it. -/
def apply_todoitem_input (i : TodoItem) (inp : TodoItemInput) (now : Nat) : TodoItem :=
  { i with title := inp.title.getD i.title,
           description := inp.description.getD i.description,
           is_completed := inp.is_completed.getD i.is_completed,
           updated_at := now }

/-- TodoItem field validation: `title` required non-blank,
`description` blank=True. -/
def todoitem_input_errors (inp : TodoItemInput) : List String :=
  if inp.title = some "" then ["title"] else []

/-- TodoItemListCreateView.get_todo_list: resolve the URL list id under
the requester's ownership scope; a list owned by someone else is a 404. -/
def get_todo_list (db : DB) (u list_id : Nat) : Except ApiError TodoList :=
  match db.todoLists.find? (fun l => l.id == list_id && l.user == u) with
  | some l => .ok l
  | none => .error .NotFound

/-- TodoItemListCreateView.get_queryset: items of the resolved list,
in Meta ordering. -/
def todoitem_list (db : DB) (u list_id : Nat) : Except ApiError (List TodoItem) :=
  match get_todo_list db u list_id with
  | .error e => .error e
  | .ok l =>
      .ok (sortByCreatedDesc TodoItem.created_at
            (db.todoItems.filter (fun i => i.todo_list == l.id)))

/-- TodoItemListCreateView create: perform_create saves with the
resolved list as parent; `completed_at` is read-only so the row keeps
its model default null, whatever the body supplied. -/
def todoitem_create (db : DB) (u list_id : Nat) (inp : TodoItemInput) (now : Nat) :
    Except ApiError (DB × TodoItem) :=
  match get_todo_list db u list_id with
  | .error e => .error e
  | .ok l =>
      match inp.title with
      | none => .error (.ValidationError ["title"])
      | some t =>
          if t = "" then .error (.ValidationError ["title"])
          else
            let i : TodoItem := { id := db.nextId, todo_list := l.id, title := t,
                                  description := inp.description.getD "",
                                  is_completed := inp.is_completed.getD false,
                                  created_at := now, updated_at := now,
                                  completed_at := none }
            .ok ({ db with todoItems := db.todoItems ++ [i], nextId := db.nextId + 1 }, i)

/-- TodoItemDetailView get_object: pk inside
`TodoItem.objects.filter(todo_list__user=request.user)` — the inner
join keeps an item only when its parent list exists and is owned by
the requester. -/
def todoitem_get_object (db : DB) (u : Nat) (pk : Nat) : Option TodoItem :=
  (db.todoItems.filter (fun i =>
      match db.todoLists.find? (fun l => l.id == i.todo_list) with
      | some l => l.user == u
      | none => false)).find? (fun i => i.id == pk)

/-- TodoItemDetailView GET. -/
def todoitem_retrieve (db : DB) (u pk : Nat) : Except ApiError TodoItem :=
  match todoitem_get_object db u pk with
  | some i => .ok i
  | none => .error .NotFound

/-- TodoItemDetailView PUT/PATCH with perform_update: when the body
carries `is_completed`, a false-to-true transition saves with
`completed_at = now`, a true-to-false transition saves with
`completed_at = null`, and any other case saves without touching it. -/
def todoitem_update (db : DB) (u pk : Nat) (inp : TodoItemInput) (now : Nat) :
    Except ApiError (DB × TodoItem) :=
  match todoitem_get_object db u pk with
  | none => .error .NotFound
  | some i =>
      if todoitem_input_errors inp ≠ [] then
        .error (.ValidationError (todoitem_input_errors inp))
      else
        let base := apply_todoitem_input i inp now
        let i2 := match inp.is_completed with
          | some b =>
              if b && !i.is_completed then { base with completed_at := some now }
              else if !b && i.is_completed then { base with completed_at := none }
              else base
          | none => base
        .ok ({ db with todoItems := db.todoItems.map (fun m => if m.id == pk then i2 else m) }, i2)

/-- TodoItemDetailView DELETE. -/
def todoitem_delete (db : DB) (u pk : Nat) : Except ApiError DB :=
  match todoitem_get_object db u pk with
  | none => .error .NotFound
  | some _ => .ok { db with todoItems := db.todoItems.filter (fun m => m.id != pk) }

/-- accounts/validators.py CustomPasswordValidator.validate: at least 8
characters, at least one upper-case letter, one lower-case letter and
one decimal digit (the ASCII classes the regexes test). -/
def custom_password_ok (p : String) : Bool :=
  !(p.length < 8) && p.data.any Char.isUpper && p.data.any Char.isLower
    && p.data.any Char.isDigit

/-- RegisterSerializer input: email and password required; names optional. -/
structure RegisterInput where
  email : String
  password : String
  first_name : Option String := none
  last_name : Option String := none
  deriving Repr, DecidableEq

/-- Field-keyed validation errors of RegisterSerializer.is_valid:
validate_email rejects an email already held by an existing user;
validate_password runs the password policy. Modelled from the spec for
the settings wiring (the settings module registering
CustomPasswordValidator in AUTH_PASSWORD_VALIDATORS is not under src):
the policy applied is the one of accounts/validators.py. -/
def register_errors (db : DB) (inp : RegisterInput) : List String :=
  (if db.users.any (fun x => x.email == inp.email) then ["email"] else []) ++
  (if custom_password_ok inp.password then [] else ["password"])

/-- RegisterView.post: on valid input create the user (password stored
as the credential checked by check_password); otherwise a 400 with the
field-keyed errors and no row created. -/
def register (db : DB) (inp : RegisterInput) : Except ApiError (DB × User) :=
  if register_errors db inp = [] then
    let u : User := { id := db.nextId, email := inp.email, password := inp.password,
                      first_name := inp.first_name.getD "",
                      last_name := inp.last_name.getD "" }
    .ok ({ db with users := db.users ++ [u], nextId := db.nextId + 1 }, u)
  else .error (.ValidationError (register_errors db inp))

/-- user.check_password: the supplied plaintext matches the stored
credential (hash verification modelled as equality on the stored value). -/
def check_password (u : User) (p : String) : Bool :=
  p == u.password

/-- user.delete() with the model graph's on_delete=CASCADE edges: the
user row, every Note with that owner, every TodoList with that owner,
and every TodoItem of one of those lists go in one atomic statement. -/
def user_cascade_delete (db : DB) (u : Nat) : DB :=
  let deadLists := db.todoLists.filter (fun l => l.user == u)
  { db with
    users := db.users.filter (fun x => x.id != u),
    notes := db.notes.filter (fun n => n.user != u),
    todoLists := db.todoLists.filter (fun l => l.user != u),
    todoItems := db.todoItems.filter
      (fun i => !(deadLists.any (fun l => l.id == i.todo_list))) }

/-- DeleteAccountView.post: DeleteAccountSerializer requires `password`
and its validate_password checks it against the requesting user; a
missing or wrong password is a 400 keyed to `password` and nothing is
deleted; a correct one deletes the user with the cascade. -/
def delete_account (db : DB) (u : User) (password : Option String) : Except ApiError DB :=
  match password with
  | none => .error (.ValidationError ["password"])
  | some p =>
      if check_password u p then .ok (user_cascade_delete db u.id)
      else .error (.ValidationError ["password"])

/-- Membership is preserved by a descending insertion. -/
theorem mem_insertDesc {α : Type} (f : α → Nat) (a x : α) (l : List α) :
    x ∈ insertDesc f a l ↔ x = a ∨ x ∈ l := by
  induction l with
  | nil => simp [insertDesc]
  | cons y ys ih =>
      simp only [insertDesc]
      split
      · simp
      · simp [ih]; tauto

/-- Sorting newest-first does not change which rows appear. -/
theorem mem_sortByCreatedDesc {α : Type} (f : α → Nat) (x : α) (l : List α) :
    x ∈ sortByCreatedDesc f l ↔ x ∈ l := by
  induction l with
  | nil => simp [sortByCreatedDesc]
  | cons y ys ih => simp [sortByCreatedDesc, mem_insertDesc, ih]

/-- A scoped lookup misses when every row matching the pk fails the scope. -/
theorem find?_filter_eq_none {α : Type} (p q : α → Bool) (l : List α)
    (h : ∀ x ∈ l, p x = true → q x = false) :
    (l.filter q).find? p = none := by
  rw [List.find?_eq_none]
  intro x hx
  rw [List.mem_filter] at hx
  intro hp
  rw [h x hx.1 hp] at hx
  exact Bool.false_ne_true hx.2

/-- Notes: the detail lookup misses for a non-owner. -/
theorem note_get_object_other_user (db : DB) (u1 u2 pk : Nat) (hu : u2 ≠ u1)
    (hn : ∀ n ∈ db.notes, n.id = pk → n.user = u1) :
    note_get_object db u2 pk = none := by
  apply find?_filter_eq_none
  intro n hmem hp
  rw [beq_iff_eq] at hp
  rw [hn n hmem hp]
  exact beq_eq_false_iff_ne.mpr (fun h => hu h.symm)

/-- Todo lists: the detail lookup misses for a non-owner. -/
theorem todolist_get_object_other_user (db : DB) (u1 u2 pk : Nat) (hu : u2 ≠ u1)
    (hl : ∀ l ∈ db.todoLists, l.id = pk → l.user = u1) :
    todolist_get_object db u2 pk = none := by
  apply find?_filter_eq_none
  intro l hmem hp
  rw [beq_iff_eq] at hp
  rw [hl l hmem hp]
  exact beq_eq_false_iff_ne.mpr (fun h => hu h.symm)

/-- Todo items: the joined detail lookup misses when every parent list
of an item with the pk belongs to another user. -/
theorem todoitem_get_object_other_user (db : DB) (u1 u2 pk : Nat) (hu : u2 ≠ u1)
    (hi : ∀ i ∈ db.todoItems, i.id = pk →
          ∀ l ∈ db.todoLists, l.id = i.todo_list → l.user = u1) :
    todoitem_get_object db u2 pk = none := by
  apply find?_filter_eq_none
  intro i hmem hp
  rw [beq_iff_eq] at hp
  cases hfind : db.todoLists.find? (fun l => l.id == i.todo_list) with
  | none => simp
  | some l =>
      have hmeml := List.mem_of_find?_eq_some hfind
      have hpl := List.find?_some hfind
      rw [beq_iff_eq] at hpl
      simp only
      rw [hi i hmem hp l hmeml hpl]
      exact beq_eq_false_iff_ne.mpr (fun h => hu h.symm)

/-- A two-user sample store: user 1 owns note 10, todo list 11 and
item 12 of that list; user 2 owns nothing. -/
def sampleDB : DB :=
  { users := [{ id := 1, email := "u1@x.com", password := "Passw0rd",
                first_name := "", last_name := "" },
              { id := 2, email := "u2@x.com", password := "Qwerty12",
                first_name := "", last_name := "" }],
    notes := [{ id := 10, title := "Python tips", content := "use venv",
                created_at := 1, updated_at := 1, user := 1 }],
    todoLists := [{ id := 11, user := 1, title := "groceries",
                    description := "weekly", created_at := 2, updated_at := 2 }],
    todoItems := [{ id := 12, todo_list := 11, title := "milk", description := "",
                    is_completed := false, created_at := 3, updated_at := 3,
                    completed_at := none }],
    nextId := 20 }

/-- C1: for distinct authenticated users, retrieve, update and delete
on a Note, TodoList or TodoItem owned (directly or transitively) by the
other user fail with NotFound — never Forbidden — and, the error firing
before any write, no stored field changes. -/
theorem claim_C1 (db : DB) (u1 u2 npk lpk ipk : Nat)
    (ninp : NoteInput) (linp : TodoListInput) (iinp : TodoItemInput) (now : Nat)
    (hu : u2 ≠ u1)
    (hn : ∀ n ∈ db.notes, n.id = npk → n.user = u1)
    (hl : ∀ l ∈ db.todoLists, l.id = lpk → l.user = u1)
    (hi : ∀ i ∈ db.todoItems, i.id = ipk →
          ∀ l ∈ db.todoLists, l.id = i.todo_list → l.user = u1) :
    note_retrieve db u2 npk = .error .NotFound ∧
    note_update db u2 npk ninp now = .error .NotFound ∧
    note_delete db u2 npk = .error .NotFound ∧
    todolist_retrieve db u2 lpk = .error .NotFound ∧
    todolist_update db u2 lpk linp now = .error .NotFound ∧
    todolist_delete db u2 lpk = .error .NotFound ∧
    todoitem_retrieve db u2 ipk = .error .NotFound ∧
    todoitem_update db u2 ipk iinp now = .error .NotFound ∧
    todoitem_delete db u2 ipk = .error .NotFound := by
  have hgn := note_get_object_other_user db u1 u2 npk hu hn
  have hgl := todolist_get_object_other_user db u1 u2 lpk hu hl
  have hgi := todoitem_get_object_other_user db u1 u2 ipk hu hi
  refine ⟨?_, ?_, ?_, ?_, ?_, ?_, ?_, ?_, ?_⟩ <;>
    simp [note_retrieve, note_update, note_delete, todolist_retrieve,
          todolist_update, todolist_delete, todoitem_retrieve, todoitem_update,
          todoitem_delete, hgn, hgl, hgi]

/-- C1 witness: user 2 hitting user 1's rows in the sample store. -/
theorem claim_C1_witness :
    note_retrieve sampleDB 2 10 = .error .NotFound ∧
    note_update sampleDB 2 10 {} 5 = .error .NotFound ∧
    note_delete sampleDB 2 10 = .error .NotFound ∧
    todolist_retrieve sampleDB 2 11 = .error .NotFound ∧
    todolist_update sampleDB 2 11 {} 5 = .error .NotFound ∧
    todolist_delete sampleDB 2 11 = .error .NotFound ∧
    todoitem_retrieve sampleDB 2 12 = .error .NotFound ∧
    todoitem_update sampleDB 2 12 {} 5 = .error .NotFound ∧
    todoitem_delete sampleDB 2 12 = .error .NotFound :=
  claim_C1 sampleDB 1 2 10 11 12 {} {} {} 5
    (by decide) (by decide) (by decide) (by decide)

/-- A successful item creation stores a null completed_at and the
body's completion flag (defaulting to false). -/
theorem todoitem_create_ok (db : DB) (u lk : Nat) (inp : TodoItemInput) (now : Nat)
    (db' : DB) (j : TodoItem)
    (h : todoitem_create db u lk inp now = .ok (db', j)) :
    j.completed_at = none ∧ j.is_completed = inp.is_completed.getD false := by
  rw [todoitem_create] at h
  cases hg : get_todo_list db u lk with
  | error e => rw [hg] at h; exact absurd h (by simp)
  | ok l =>
      rw [hg] at h
      dsimp only at h
      cases ht : inp.title with
      | none => rw [ht] at h; exact absurd h (by simp)
      | some t =>
          rw [ht] at h
          dsimp only at h
          by_cases he : t = ""
          · simp only [he, if_pos rfl] at h
            exact absurd h (by simp)
          · rw [if_neg he] at h
            simp only [Except.ok.injEq, Prod.mk.injEq] at h
            rw [← h.2]
            exact ⟨rfl, rfl⟩

/-- C2 counterexample: creating an item whose body carries
is_completed = true stores is_completed = true with completed_at still
null, so the claimed iff invariant fails right after creation. -/
theorem claim_C2_counterexample :
    (todoitem_create sampleDB 1 11
        { title := some "eggs", is_completed := some true } 5).toOption.map
      (fun r => (r.2.is_completed, r.2.completed_at)) = some (true, none) := by
  rfl

/-- C2 (amended): every update follows the transition rules — a body
turning is_completed false-to-true stamps completed_at = now, one
turning it true-to-false clears it, and a body not changing the flag
leaves completed_at untouched — and updates preserve the iff invariant
when it held before; after creation the iff holds exactly when the
body did not supply is_completed = true (completed_at is always stored
null at creation). -/
theorem claim_C2 (db : DB) (u pk : Nat) (inp : TodoItemInput) (now : Nat)
    (db' : DB) (i i2 : TodoItem)
    (hget : todoitem_get_object db u pk = some i)
    (hupd : todoitem_update db u pk inp now = .ok (db', i2)) :
    (inp.is_completed = some true → i.is_completed = false →
        i2.completed_at = some now ∧ i2.is_completed = true) ∧
    (inp.is_completed = some false → i.is_completed = true →
        i2.completed_at = none ∧ i2.is_completed = false) ∧
    ((inp.is_completed = none ∨ inp.is_completed = some i.is_completed) →
        i2.completed_at = i.completed_at) ∧
    ((i.is_completed = true ↔ i.completed_at ≠ none) →
        (i2.is_completed = true ↔ i2.completed_at ≠ none)) ∧
    (∀ (cdb : DB) (j : TodoItem) (cinp : TodoItemInput) (lk : Nat),
        todoitem_create db u lk cinp now = .ok (cdb, j) →
        j.completed_at = none ∧
        (cinp.is_completed ≠ some true → (j.is_completed = true ↔ j.completed_at ≠ none))) := by
  rw [todoitem_update, hget] at hupd
  dsimp only at hupd
  by_cases herr : todoitem_input_errors inp ≠ []
  · rw [if_pos herr] at hupd
    exact absurd hupd (by simp)
  · rw [if_neg herr] at hupd
    simp only [Except.ok.injEq, Prod.mk.injEq] at hupd
    have hi2 := hupd.2
    refine ⟨?_, ?_, ?_, ?_, ?_⟩
    · intro hb hic
      rw [← hi2, hb]
      simp [hb, hic, apply_todoitem_input]
    · intro hb hic
      rw [← hi2, hb]
      simp [hb, hic, apply_todoitem_input]
    · intro hcase
      rcases hcase with hn | hs
      · rw [← hi2, hn]; simp [apply_todoitem_input]
      · rw [← hi2, hs]
        cases hic : i.is_completed <;> simp [hic, apply_todoitem_input]
    · intro hinv
      cases hb : inp.is_completed with
      | none =>
          rw [← hi2, hb]
          simpa [hb, apply_todoitem_input] using hinv
      | some b =>
          rw [← hi2, hb]
          cases b <;> cases hic : i.is_completed <;>
            simp [hb, hic, apply_todoitem_input] <;>
            simp [hic] at hinv <;> simp [hinv]
    · intro cdb j cinp lk hc
      have hj := todoitem_create_ok db u lk cinp now cdb j hc
      refine ⟨hj.1, ?_⟩
      intro hne
      rw [hj.1, hj.2]
      cases hb : cinp.is_completed with
      | none => simp
      | some b => cases b <;> simp_all

/-- C2 witness values: updating item 12 with a body carrying
is_completed = true at instant 9. -/
def c2Item : TodoItem :=
  { id := 12, todo_list := 11, title := "milk", description := "",
    is_completed := false, created_at := 3, updated_at := 3, completed_at := none }

/-- The item after the completing update. -/
def c2ItemUpd : TodoItem :=
  { id := 12, todo_list := 11, title := "milk", description := "",
    is_completed := true, created_at := 3, updated_at := 9, completed_at := some 9 }

/-- The store after the completing update. -/
def c2DB : DB :=
  { sampleDB with todoItems := [c2ItemUpd] }

/-- C2 witness: the false-to-true transition on item 12 stamps
completed_at = 9. -/
theorem claim_C2_witness :
    c2ItemUpd.completed_at = some 9 ∧ c2ItemUpd.is_completed = true :=
  (claim_C2 sampleDB 1 12 { is_completed := some true } 9 c2DB c2Item c2ItemUpd
      (by rfl) (by rfl)).1 rfl rfl

/-- C9: every successful TodoItem creation stores completed_at = null —
completed_at is a read-only serializer field and perform_create never
sets it — while the body's is_completed is honoured (default false), so
an item can exist with is_completed = true and completed_at = null. -/
theorem claim_C9 (db : DB) (u lk : Nat) (inp : TodoItemInput) (now : Nat)
    (db' : DB) (j : TodoItem)
    (h : todoitem_create db u lk inp now = .ok (db', j)) :
    j.completed_at = none ∧ j.is_completed = inp.is_completed.getD false := by
  exact todoitem_create_ok db u lk inp now db' j h

/-- C9 witness: creating an item in list 11 with is_completed = true. -/
theorem claim_C9_witness :
    ({ id := 20, todo_list := 11, title := "eggs", description := "",
       is_completed := true, created_at := 5, updated_at := 5,
       completed_at := none } : TodoItem).completed_at = none ∧
    ({ id := 20, todo_list := 11, title := "eggs", description := "",
       is_completed := true, created_at := 5, updated_at := 5,
       completed_at := none } : TodoItem).is_completed =
      (({ title := some "eggs", is_completed := some true } : TodoItemInput).is_completed).getD false :=
  claim_C9 sampleDB 1 11 { title := some "eggs", is_completed := some true } 5
    { sampleDB with
        todoItems := sampleDB.todoItems ++
          [{ id := 20, todo_list := 11, title := "eggs", description := "",
             is_completed := true, created_at := 5, updated_at := 5,
             completed_at := none }],
        nextId := 21 }
    { id := 20, todo_list := 11, title := "eggs", description := "",
      is_completed := true, created_at := 5, updated_at := 5,
      completed_at := none }
    (by rfl)

/-- Filtering twice with incompatible predicates leaves nothing. -/
theorem filter_filter_nil {α : Type} (p q : α → Bool) (l : List α)
    (h : ∀ x, p x = true → q x = false) :
    (l.filter p).filter q = [] := by
  rw [List.filter_eq_nil_iff]
  intro a ha
  rw [List.mem_filter] at ha
  rw [h a ha.2]
  exact Bool.false_ne_true

/-- C4: a successful TodoList delete removes the list row and, through
the on_delete=CASCADE edge of TodoItem.todo_list, every item
referencing it, in the one atomic statement — afterwards zero items
reference the list; users and notes are untouched. -/
theorem claim_C4 (db : DB) (u pk : Nat) (db' : DB)
    (h : todolist_delete db u pk = .ok db') :
    (db'.todoItems.filter (fun i => i.todo_list == pk)).length = 0 ∧
    (db'.todoLists.filter (fun l => l.id == pk)).length = 0 ∧
    db'.users = db.users ∧ db'.notes = db.notes := by
  rw [todolist_delete] at h
  cases hg : todolist_get_object db u pk with
  | none => rw [hg] at h; exact absurd h (by simp)
  | some l =>
      rw [hg] at h
      simp only [Except.ok.injEq] at h
      rw [← h]
      refine ⟨?_, ?_, rfl, rfl⟩
      · rw [filter_filter_nil]
        · rfl
        · intro x hx
          rw [bne_iff_ne] at hx
          exact beq_eq_false_iff_ne.mpr hx
      · rw [filter_filter_nil]
        · rfl
        · intro x hx
          rw [bne_iff_ne] at hx
          exact beq_eq_false_iff_ne.mpr hx

/-- C4 witness: user 1 deletes list 11 in the sample store; item 12 of
that list goes with it. -/
theorem claim_C4_witness :
    ((({ sampleDB with todoLists := [], todoItems := [] } : DB)).todoItems.filter
        (fun i => i.todo_list == 11)).length = 0 ∧
    ((({ sampleDB with todoLists := [], todoItems := [] } : DB)).todoLists.filter
        (fun l => l.id == 11)).length = 0 ∧
    (({ sampleDB with todoLists := [], todoItems := [] } : DB)).users = sampleDB.users ∧
    (({ sampleDB with todoLists := [], todoItems := [] } : DB)).notes = sampleDB.notes :=
  claim_C4 sampleDB 1 11 { sampleDB with todoLists := [], todoItems := [] } (by rfl)

/-- C5: a successful account deletion leaves no user row with the
deleted id, no note or todo list owned by it, and no item whose parent
was one of the deleted user's lists. -/
theorem claim_C5 (db : DB) (u : User) (pw : String) (db' : DB)
    (h : delete_account db u (some pw) = .ok db') :
    (db'.users.filter (fun x => x.id == u.id)).length = 0 ∧
    (db'.notes.filter (fun n => n.user == u.id)).length = 0 ∧
    (db'.todoLists.filter (fun l => l.user == u.id)).length = 0 ∧
    (db'.todoItems.filter (fun i =>
        db.todoLists.any (fun l => l.id == i.todo_list && l.user == u.id))).length = 0 := by
  rw [delete_account] at h
  by_cases hc : check_password u pw
  · rw [if_pos hc] at h
    simp only [Except.ok.injEq] at h
    rw [← h, user_cascade_delete]
    refine ⟨?_, ?_, ?_, ?_⟩
    · rw [filter_filter_nil]
      · rfl
      · intro x hx
        rw [bne_iff_ne] at hx
        exact beq_eq_false_iff_ne.mpr hx
    · rw [filter_filter_nil]
      · rfl
      · intro x hx
        rw [bne_iff_ne] at hx
        exact beq_eq_false_iff_ne.mpr hx
    · rw [filter_filter_nil]
      · rfl
      · intro x hx
        rw [bne_iff_ne] at hx
        exact beq_eq_false_iff_ne.mpr hx
    · rw [filter_filter_nil]
      · rfl
      · intro i hi
        rw [Bool.not_eq_true', List.any_eq_false] at hi
        rw [List.any_eq_false]
        intro l hl
        intro hcontra
        rw [Bool.and_eq_true, beq_iff_eq, beq_iff_eq] at hcontra
        have hmem : l ∈ db.todoLists.filter (fun l => l.user == u.id) := by
          rw [List.mem_filter]
          exact ⟨hl, beq_iff_eq.mpr hcontra.2⟩
        have := hi l hmem
        rw [beq_iff_eq.mpr hcontra.1] at this
        simp at this
  · rw [if_neg hc] at h
    exact absurd h (by simp)

/-- C5 witness: user 1 deletes their account with the correct password;
their note, list and item all go. -/
theorem claim_C5_witness :
    ((user_cascade_delete sampleDB 1).users.filter (fun x => x.id == 1)).length = 0 ∧
    ((user_cascade_delete sampleDB 1).notes.filter (fun n => n.user == 1)).length = 0 ∧
    ((user_cascade_delete sampleDB 1).todoLists.filter (fun l => l.user == 1)).length = 0 ∧
    ((user_cascade_delete sampleDB 1).todoItems.filter (fun i =>
        sampleDB.todoLists.any (fun l => l.id == i.todo_list && l.user == 1))).length = 0 :=
  claim_C5 sampleDB
    { id := 1, email := "u1@x.com", password := "Passw0rd", first_name := "", last_name := "" }
    "Passw0rd" (user_cascade_delete sampleDB 1) (by rfl)

/-- Shape of a successful note creation: the row is appended, owned by
the requester, stamped with the creation instant. -/
theorem note_create_ok (db : DB) (u : Nat) (t c : String) (now : Nat)
    (db' : DB) (n : Note) (h : note_create db u t c now = .ok (db', n)) :
    db'.notes = db.notes ++ [n] ∧ n.user = u ∧ n.created_at = now := by
  rw [note_create] at h
  by_cases hv : t = "" ∨ c = ""
  · rw [if_pos hv] at h; exact absurd h (by simp)
  · rw [if_neg hv] at h
    simp only [Except.ok.injEq, Prod.mk.injEq] at h
    obtain ⟨h1, h2⟩ := h
    subst h1
    rw [← h2]
    exact ⟨rfl, rfl, rfl⟩

/-- Shape of a successful todo-list creation. -/
theorem todolist_create_ok (db : DB) (u : Nat) (t d : String) (now : Nat)
    (db' : DB) (l : TodoList) (h : todolist_create db u t d now = .ok (db', l)) :
    db'.todoLists = db.todoLists ++ [l] ∧ l.user = u ∧ l.created_at = now := by
  rw [todolist_create] at h
  by_cases hv : t = ""
  · rw [if_pos hv] at h; exact absurd h (by simp)
  · rw [if_neg hv] at h
    simp only [Except.ok.injEq, Prod.mk.injEq] at h
    obtain ⟨h1, h2⟩ := h
    subst h1
    rw [← h2]
    exact ⟨rfl, rfl, rfl⟩

/-- A resolved parent list is a stored row with the URL id, owned by
the requester. -/
theorem get_todo_list_ok (db : DB) (u lk : Nat) (l : TodoList)
    (h : get_todo_list db u lk = .ok l) :
    l ∈ db.todoLists ∧ l.id = lk ∧ l.user = u := by
  rw [get_todo_list] at h
  cases hf : db.todoLists.find? (fun l => l.id == lk && l.user == u) with
  | none => rw [hf] at h; exact absurd h (by simp)
  | some l0 =>
      rw [hf] at h
      simp only [Except.ok.injEq] at h
      subst h
      have hmem := List.mem_of_find?_eq_some hf
      have hp := List.find?_some hf
      rw [Bool.and_eq_true, beq_iff_eq, beq_iff_eq] at hp
      exact ⟨hmem, hp.1, hp.2⟩

/-- The parent-list resolution reads only the todoLists rows. -/
theorem get_todo_list_congr (db1 db2 : DB) (u lk : Nat)
    (h : db1.todoLists = db2.todoLists) :
    get_todo_list db1 u lk = get_todo_list db2 u lk := by
  rw [get_todo_list, get_todo_list, h]

/-- Shape of a successful item creation: the row is appended to the
item table, the list table is untouched, the row points at the
resolved list and is stamped with the creation instant. -/
theorem todoitem_create_shape (db : DB) (u lk : Nat) (inp : TodoItemInput) (now : Nat)
    (db' : DB) (j : TodoItem) (h : todoitem_create db u lk inp now = .ok (db', j)) :
    db'.todoItems = db.todoItems ++ [j] ∧ db'.todoLists = db.todoLists ∧
    j.created_at = now ∧
    ∃ l, get_todo_list db u lk = .ok l ∧ j.todo_list = l.id := by
  rw [todoitem_create] at h
  cases hg : get_todo_list db u lk with
  | error e => rw [hg] at h; exact absurd h (by simp)
  | ok l =>
      rw [hg] at h
      dsimp only at h
      cases ht : inp.title with
      | none => rw [ht] at h; exact absurd h (by simp)
      | some t =>
          rw [ht] at h
          dsimp only at h
          by_cases he : t = ""
          · simp only [he, if_pos rfl] at h
            exact absurd h (by simp)
          · rw [if_neg he] at h
            simp only [Except.ok.injEq, Prod.mk.injEq] at h
            obtain ⟨h1, h2⟩ := h
            subst h1
            rw [← h2]
            exact ⟨rfl, rfl, rfl, l, rfl, rfl⟩

/-- Sorting a two-row table newest-first swaps an older-then-newer pair. -/
theorem sortDesc_pair {α : Type} (f : α → Nat) (a b : α) (h : f a < f b) :
    sortByCreatedDesc f [a, b] = [b, a] := by
  simp only [sortByCreatedDesc, insertDesc, if_neg (Nat.not_le.mpr h)]

/-- C6: for every resource kind, listing is newest-first by creation
time — starting from a store where the scope is empty, creating A at
instant t1 and then B at a later instant t2 makes the listing [B, A]. -/
theorem claim_C6 (dbn dbl dbi : DB) (u lk t1 t2 : Nat)
    (ta ca tb cb lta lda ltb ldd : String) (iA iB : TodoItemInput)
    (db1 db2 ldb1 ldb2 idb1 idb2 : DB)
    (a b : Note) (la lb : TodoList) (ia ib : TodoItem)
    (ht : t1 < t2)
    (hn0 : dbn.notes.filter (fun n => n.user == u) = [])
    (hnA : note_create dbn u ta ca t1 = .ok (db1, a))
    (hnB : note_create db1 u tb cb t2 = .ok (db2, b))
    (hl0 : dbl.todoLists.filter (fun l => l.user == u) = [])
    (hlA : todolist_create dbl u lta lda t1 = .ok (ldb1, la))
    (hlB : todolist_create ldb1 u ltb ldd t2 = .ok (ldb2, lb))
    (hi0 : dbi.todoItems.filter (fun i => i.todo_list == lk) = [])
    (hiA : todoitem_create dbi u lk iA t1 = .ok (idb1, ia))
    (hiB : todoitem_create idb1 u lk iB t2 = .ok (idb2, ib)) :
    note_list_queryset db2 u none = [b, a] ∧
    todolist_list ldb2 u none = [lb, la] ∧
    todoitem_list idb2 u lk = .ok [ib, ia] := by
  obtain ⟨hA1, hA2, hA3⟩ := note_create_ok dbn u ta ca t1 db1 a hnA
  obtain ⟨hB1, hB2, hB3⟩ := note_create_ok db1 u tb cb t2 db2 b hnB
  obtain ⟨hlA1, hlA2, hlA3⟩ := todolist_create_ok dbl u lta lda t1 ldb1 la hlA
  obtain ⟨hlB1, hlB2, hlB3⟩ := todolist_create_ok ldb1 u ltb ldd t2 ldb2 lb hlB
  obtain ⟨hiA1, hiA2, hiA3, l, hgA, hjA⟩ :=
    todoitem_create_shape dbi u lk iA t1 idb1 ia hiA
  obtain ⟨hiB1, hiB2, hiB3, l', hgB, hjB⟩ :=
    todoitem_create_shape idb1 u lk iB t2 idb2 ib hiB
  refine ⟨?_, ?_, ?_⟩
  · have hfilter : db2.notes.filter (fun n => n.user == u) = [a, b] := by
      rw [hB1, hA1, List.filter_append, List.filter_append, hn0]
      simp [hA2, hB2]
    have hq : note_list_queryset db2 u none =
        sortByCreatedDesc Note.created_at (db2.notes.filter (fun n => n.user == u)) := rfl
    rw [hq, hfilter, sortDesc_pair]
    rw [hA3, hB3]
    exact ht
  · have hfilter : ldb2.todoLists.filter (fun l => l.user == u) = [la, lb] := by
      rw [hlB1, hlA1, List.filter_append, List.filter_append, hl0]
      simp [hlA2, hlB2]
    have hq : todolist_list ldb2 u none =
        sortByCreatedDesc TodoList.created_at
          (ldb2.todoLists.filter (fun l => l.user == u)) := rfl
    rw [hq, hfilter, sortDesc_pair]
    rw [hlA3, hlB3]
    exact ht
  · rw [get_todo_list_congr idb1 dbi u lk hiA2, hgA] at hgB
    have hll : l' = l := by
      simp only [Except.ok.injEq] at hgB
      exact hgB.symm
    subst hll
    obtain ⟨hlmem, hlid, hluser⟩ := get_todo_list_ok dbi u lk l' hgA
    have hg2 : get_todo_list idb2 u lk = .ok l' := by
      rw [get_todo_list_congr idb2 idb1 u lk hiB2,
          get_todo_list_congr idb1 dbi u lk hiA2, hgA]
    have hq : todoitem_list idb2 u lk =
        .ok (sortByCreatedDesc TodoItem.created_at
              (idb2.todoItems.filter (fun i => i.todo_list == l'.id))) := by
      rw [todoitem_list, hg2]
    have hfilter : idb2.todoItems.filter (fun i => i.todo_list == l'.id) = [ia, ib] := by
      rw [hiB1, hiA1, List.filter_append, List.filter_append, hlid, hi0]
      simp [hjA, hjB, hlid]
    rw [hq, hfilter, sortDesc_pair]
    rw [hiA3, hiB3]
    exact ht

/-- One-user base store for the ordering runs: user 1 owns list 11 and
nothing else. -/
def c6DB : DB :=
  { users := [{ id := 1, email := "u1@x.com", password := "Passw0rd",
                first_name := "", last_name := "" }],
    notes := [],
    todoLists := [{ id := 11, user := 1, title := "errands", description := "",
                    created_at := 0, updated_at := 0 }],
    todoItems := [], nextId := 30 }

/-- First created note of the ordering run. -/
def c6a : Note :=
  { id := 30, title := "A", content := "ca", created_at := 1, updated_at := 1, user := 1 }

/-- Second created note of the ordering run. -/
def c6b : Note :=
  { id := 31, title := "B", content := "cb", created_at := 2, updated_at := 2, user := 1 }

/-- First created todo list of the ordering run. -/
def c6la : TodoList :=
  { id := 30, user := 1, title := "LA", description := "da", created_at := 1, updated_at := 1 }

/-- Second created todo list of the ordering run. -/
def c6lb : TodoList :=
  { id := 31, user := 1, title := "LB", description := "dd", created_at := 2, updated_at := 2 }

/-- First created item of the ordering run. -/
def c6ia : TodoItem :=
  { id := 30, todo_list := 11, title := "milk", description := "",
    is_completed := false, created_at := 1, updated_at := 1, completed_at := none }

/-- Second created item of the ordering run. -/
def c6ib : TodoItem :=
  { id := 31, todo_list := 11, title := "eggs", description := "",
    is_completed := false, created_at := 2, updated_at := 2, completed_at := none }

/-- C6 witness: the three concrete create-create-list runs, each
yielding the later row first. -/
theorem claim_C6_witness :
    note_list_queryset { c6DB with notes := [c6a, c6b], nextId := 32 } 1 none = [c6b, c6a] ∧
    todolist_list { c6DB with todoLists := [c6la, c6lb], nextId := 32 } 1 none = [c6lb, c6la] ∧
    todoitem_list { c6DB with todoItems := [c6ia, c6ib], nextId := 32 } 1 11 = .ok [c6ib, c6ia] :=
  claim_C6 c6DB { c6DB with todoLists := [] } c6DB 1 11 1 2
    "A" "ca" "B" "cb" "LA" "da" "LB" "dd"
    { title := some "milk" } { title := some "eggs" }
    { c6DB with notes := [c6a], nextId := 31 }
    { c6DB with notes := [c6a, c6b], nextId := 32 }
    { c6DB with todoLists := [c6la], nextId := 31 }
    { c6DB with todoLists := [c6la, c6lb], nextId := 32 }
    { c6DB with todoItems := [c6ia], nextId := 31 }
    { c6DB with todoItems := [c6ia, c6ib], nextId := 32 }
    c6a c6b c6la c6lb c6ia c6ib
    (by decide) (by rfl) (by rfl) (by rfl) (by rfl) (by rfl) (by rfl) (by rfl) (by rfl) (by rfl)

/-- Every row of the notes listing comes from the requester's
ownership-scoped subset, whatever the search parameter. -/
theorem note_list_queryset_scoped (db : DB) (u : Nat) (os : Option String) (m : Note)
    (hm : m ∈ note_list_queryset db u os) : m ∈ db.notes ∧ m.user = u := by
  have hbase : ∀ x : Note, x ∈ db.notes.filter (fun n => n.user == u) →
      x ∈ db.notes ∧ x.user = u := by
    intro x hx
    rw [List.mem_filter] at hx
    exact ⟨hx.1, beq_iff_eq.mp hx.2⟩
  cases os with
  | none =>
      have heq : note_list_queryset db u none =
          sortByCreatedDesc Note.created_at
            (db.notes.filter (fun n => n.user == u)) := rfl
      rw [heq, mem_sortByCreatedDesc] at hm
      exact hbase m hm
  | some t =>
      by_cases ht : t.isEmpty
      · have heq : note_list_queryset db u (some t) =
            sortByCreatedDesc Note.created_at
              (db.notes.filter (fun n => n.user == u)) := by
          unfold note_list_queryset
          dsimp only
          rw [if_pos ht]
        rw [heq, mem_sortByCreatedDesc] at hm
        exact hbase m hm
      · have heq : note_list_queryset db u (some t) =
            sortByCreatedDesc Note.created_at
              ((db.notes.filter (fun n => n.user == u)).filter
                (fun n => icontains n.title t || icontains n.content t)) := by
          unfold note_list_queryset
          dsimp only
          rw [if_neg ht]
        rw [heq, mem_sortByCreatedDesc, List.mem_filter] at hm
        exact hbase m hm.1

/-- C3 counterexample: list 11 of user 1 matches the search term
nowhere, the spec-worded listing drops it, yet the code's todo-list
listing still returns it — the view never reads the search parameter. -/
theorem claim_C3_counterexample :
    todolist_list sampleDB 1 (some "zzz") =
      [{ id := 11, user := 1, title := "groceries", description := "weekly",
         created_at := 2, updated_at := 2 }] ∧
    icontains "groceries" "zzz" = false ∧
    icontains "weekly" "zzz" = false ∧
    todolist_list_spec sampleDB 1 (some "zzz") = [] :=
  ⟨by rfl, by decide, by decide, by decide⟩

/-- C3 (amended): the notes listing filters the requester's own notes
by case-insensitive substring over title and content, and never shows
another user's note; the todo-list listing is also scoped to the
requester but ignores the search parameter entirely (the result is the
one of an unparameterised listing). -/
theorem claim_C3 (db : DB) (u : Nat) (s : String) (n : Note) (hs : s ≠ "") :
    (n ∈ note_list_queryset db u (some s) ↔
        n ∈ db.notes ∧ n.user = u ∧
          (icontains n.title s || icontains n.content s) = true) ∧
    (∀ (os : Option String) (m : Note), m ∈ note_list_queryset db u os → m.user = u) ∧
    (∀ os : Option String, todolist_list db u os = todolist_list db u none) ∧
    (∀ (os : Option String) (l : TodoList), l ∈ todolist_list db u os → l.user = u) := by
  have hempty : s.isEmpty = false := by
    rw [Bool.eq_false_iff]
    intro h
    exact hs ((String.isEmpty_iff s).mp h)
  refine ⟨?_, ?_, ?_, ?_⟩
  · have heq : note_list_queryset db u (some s) =
        sortByCreatedDesc Note.created_at
          ((db.notes.filter (fun n => n.user == u)).filter
            (fun n => icontains n.title s || icontains n.content s)) := by
      unfold note_list_queryset
      dsimp only
      rw [if_neg (by simp [hempty])]
    rw [heq, mem_sortByCreatedDesc, List.mem_filter, List.mem_filter]
    constructor
    · intro h
      exact ⟨h.1.1, beq_iff_eq.mp h.1.2, h.2⟩
    · intro h
      exact ⟨⟨h.1, beq_iff_eq.mpr h.2.1⟩, h.2.2⟩
  · intro os m hm
    exact (note_list_queryset_scoped db u os m hm).2
  · intro os
    rfl
  · intro os l hl
    have heq : todolist_list db u os =
        sortByCreatedDesc TodoList.created_at
          (db.todoLists.filter (fun l => l.user == u)) := rfl
    rw [heq, mem_sortByCreatedDesc, List.mem_filter] at hl
    exact beq_iff_eq.mp hl.2

/-- C3 witness: in the sample store, searching the one note of user 1
for a term inside its content returns it, searching from user 2 shows
nothing of user 1, and the todo-list search term is ignored. -/
theorem claim_C3_witness :
    ({ id := 10, title := "Python tips", content := "use venv", created_at := 1,
       updated_at := 1, user := 1 } : Note) ∈ note_list_queryset sampleDB 1 (some "VENV") := by
  have h := (claim_C3 sampleDB 1 "VENV"
      { id := 10, title := "Python tips", content := "use venv", created_at := 1,
        updated_at := 1, user := 1 } (by decide)).1
  exact h.mpr ⟨by decide, rfl, by rfl⟩

/-- C7: registration with an email an existing user already holds
fails with a ValidationError carrying the email key, and registration
with a password below 8 characters or missing an upper-case letter, a
lower-case letter or a digit fails with a ValidationError carrying the
password key; the error return means no user row is written. -/
theorem claim_C7 (db : DB) (inp : RegisterInput) :
    (db.users.any (fun x => x.email == inp.email) = true →
        register db inp = .error (.ValidationError (register_errors db inp)) ∧
        "email" ∈ register_errors db inp) ∧
    ((inp.password.length < 8 ∨
      (∀ c ∈ inp.password.data, ¬c.isUpper = true) ∨
      (∀ c ∈ inp.password.data, ¬c.isLower = true) ∨
      (∀ c ∈ inp.password.data, ¬c.isDigit = true)) →
        register db inp = .error (.ValidationError (register_errors db inp)) ∧
        "password" ∈ register_errors db inp) := by
  constructor
  · intro hdup
    have hmem : "email" ∈ register_errors db inp := by
      rw [register_errors, hdup]
      simp
    have hne : register_errors db inp ≠ [] := by
      intro h
      rw [h] at hmem
      exact absurd hmem (List.not_mem_nil _)
    exact ⟨by rw [register, if_neg hne], hmem⟩
  · intro hweak
    have hok : custom_password_ok inp.password = false := by
      rw [custom_password_ok]
      rcases hweak with h | h | h | h
      · simp [h]
      · have hany : inp.password.data.any Char.isUpper = false := by
          rw [List.any_eq_false]
          exact h
        simp [hany]
      · have hany : inp.password.data.any Char.isLower = false := by
          rw [List.any_eq_false]
          exact h
        simp [hany]
      · have hany : inp.password.data.any Char.isDigit = false := by
          rw [List.any_eq_false]
          exact h
        simp [hany]
    have hmem : "password" ∈ register_errors db inp := by
      rw [register_errors, hok]
      simp
    have hne : register_errors db inp ≠ [] := by
      intro h
      rw [h] at hmem
      exact absurd hmem (List.not_mem_nil _)
    exact ⟨by rw [register, if_neg hne], hmem⟩

/-- C7 witness: registering with user 1's email and the password
"weak" fails with both field keys. -/
theorem claim_C7_witness :
    register sampleDB { email := "u1@x.com", password := "weak" } =
      .error (.ValidationError
        (register_errors sampleDB { email := "u1@x.com", password := "weak" })) ∧
    "email" ∈ register_errors sampleDB { email := "u1@x.com", password := "weak" } ∧
    "password" ∈ register_errors sampleDB { email := "u1@x.com", password := "weak" } := by
  have h := claim_C7 sampleDB { email := "u1@x.com", password := "weak" }
  have h1 := h.1 (by decide)
  have h2 := h.2 (Or.inl (by decide))
  exact ⟨h1.1, h1.2, h2.2⟩

/-- C8: a full or partial update through the serializer leaves the
owning-user field of a Note or TodoList and the parent-list field of a
TodoItem unchanged — the serializer has no such writable field, so a
body attempting to set them is silently ignored and, the other fields
being valid, the update succeeds instead of being rejected. The
pk-uniqueness hypotheses mirror the primary-key constraint. -/
theorem claim_C8 (db : DB) (u npk lpk ipk now : Nat)
    (ninp : NoteInput) (linp : TodoListInput) (iinp : TodoItemInput)
    (n : Note) (l : TodoList) (i : TodoItem)
    (hgn : note_get_object db u npk = some n)
    (hgl : todolist_get_object db u lpk = some l)
    (hgi : todoitem_get_object db u ipk = some i)
    (hun : ∀ m ∈ db.notes, m.id = npk → m = n)
    (hul : ∀ m ∈ db.todoLists, m.id = lpk → m = l)
    (hui : ∀ m ∈ db.todoItems, m.id = ipk → m = i)
    (hvn : note_input_errors ninp = [])
    (hvl : todolist_input_errors linp = [])
    (hvi : todoitem_input_errors iinp = []) :
    (∃ db2 n2, note_update db u npk ninp now = .ok (db2, n2) ∧ n2.user = n.user ∧
        db2.notes.map Note.user = db.notes.map Note.user) ∧
    (∃ db2 l2, todolist_update db u lpk linp now = .ok (db2, l2) ∧ l2.user = l.user ∧
        db2.todoLists.map TodoList.user = db.todoLists.map TodoList.user) ∧
    (∃ db2 i2, todoitem_update db u ipk iinp now = .ok (db2, i2) ∧
        i2.todo_list = i.todo_list ∧
        db2.todoItems.map TodoItem.todo_list = db.todoItems.map TodoItem.todo_list) := by
  refine ⟨?_, ?_, ?_⟩
  · rw [note_update, hgn]
    dsimp only
    rw [if_neg (by simp [hvn])]
    refine ⟨_, _, rfl, rfl, ?_⟩
    rw [List.map_map]
    apply List.map_congr_left
    intro m hm
    by_cases hid : m.id = npk
    · have hmn := hun m hm hid
      simp only [Function.comp_apply, beq_iff_eq, hid, if_pos rfl]
      rw [hmn]
      rfl
    · simp only [Function.comp_apply, beq_iff_eq, if_neg hid]
  · rw [todolist_update, hgl]
    dsimp only
    rw [if_neg (by simp [hvl])]
    refine ⟨_, _, rfl, rfl, ?_⟩
    rw [List.map_map]
    apply List.map_congr_left
    intro m hm
    by_cases hid : m.id = lpk
    · have hml := hul m hm hid
      simp only [Function.comp_apply, beq_iff_eq, hid, if_pos rfl]
      rw [hml]
      rfl
    · simp only [Function.comp_apply, beq_iff_eq, if_neg hid]
  · rw [todoitem_update, hgi]
    dsimp only
    rw [if_neg (by simp [hvi])]
    refine ⟨_, _, rfl, ?_, ?_⟩
    · cases hb : iinp.is_completed with
      | none => rfl
      | some b =>
          dsimp only
          by_cases h1 : (b && !i.is_completed) = true
          · rw [if_pos h1]
            rfl
          · rw [if_neg h1]
            by_cases h2 : (!b && i.is_completed) = true
            · rw [if_pos h2]
              rfl
            · rw [if_neg h2]
              rfl
    · rw [List.map_map]
      apply List.map_congr_left
      intro m hm
      by_cases hid : m.id = ipk
      · have hmi := hui m hm hid
        simp only [Function.comp_apply, beq_iff_eq, hid, if_pos rfl]
        rw [hmi]
        cases hb : iinp.is_completed with
        | none => rfl
        | some b =>
            dsimp only
            by_cases h1 : (b && !i.is_completed) = true
            · rw [if_pos h1]
              rfl
            · rw [if_neg h1]
              by_cases h2 : (!b && i.is_completed) = true
              · rw [if_pos h2]
                rfl
              · rw [if_neg h2]
                rfl
      · simp only [Function.comp_apply, beq_iff_eq, if_neg hid]

/-- The stored note 10 before the C8 updates. -/
def c8Note : Note :=
  { id := 10, title := "Python tips", content := "use venv",
    created_at := 1, updated_at := 1, user := 1 }

/-- The stored list 11 before the C8 updates. -/
def c8List : TodoList :=
  { id := 11, user := 1, title := "groceries", description := "weekly",
    created_at := 2, updated_at := 2 }

/-- The stored item 12 before the C8 updates. -/
def c8Item : TodoItem :=
  { id := 12, todo_list := 11, title := "milk", description := "",
    is_completed := false, created_at := 3, updated_at := 3, completed_at := none }

/-- C8 witness: updates that try to hand note 10, list 11 and item 12
to user 2 (or list 99) succeed and move nothing. -/
theorem claim_C8_witness :
    (∃ db2 n2,
      note_update sampleDB 1 10 { title := some "t2", user := some 2 } 7 = .ok (db2, n2) ∧
      n2.user = c8Note.user ∧
      db2.notes.map Note.user = sampleDB.notes.map Note.user) ∧
    (∃ db2 l2,
      todolist_update sampleDB 1 11 { user := some 2 } 7 = .ok (db2, l2) ∧
      l2.user = c8List.user ∧
      db2.todoLists.map TodoList.user = sampleDB.todoLists.map TodoList.user) ∧
    (∃ db2 i2,
      todoitem_update sampleDB 1 12 { todo_list := some 99 } 7 = .ok (db2, i2) ∧
      i2.todo_list = c8Item.todo_list ∧
      db2.todoItems.map TodoItem.todo_list = sampleDB.todoItems.map TodoItem.todo_list) :=
  claim_C8 sampleDB 1 10 11 12 7
    { title := some "t2", user := some 2 } { user := some 2 } { todo_list := some 99 }
    c8Note c8List c8Item
    (by rfl) (by rfl) (by rfl) (by decide) (by decide) (by decide)
    (by decide) (by decide) (by decide)

/-- C10: account deletion succeeds exactly when the request carries the
user's correct current password — then the user row is gone — and a
missing or wrong password yields a ValidationError keyed to the
password field, the error firing before any deletion. -/
theorem claim_C10 (db : DB) (u : User) (pw : Option String) :
    (∀ db2, delete_account db u pw = .ok db2 →
        pw = some u.password ∧ (db2.users.filter (fun x => x.id == u.id)).length = 0) ∧
    (pw ≠ some u.password →
        delete_account db u pw = .error (.ValidationError ["password"])) ∧
    (pw = some u.password → ∃ db2, delete_account db u pw = .ok db2) := by
  cases pw with
  | none =>
      refine ⟨?_, ?_, ?_⟩
      · intro db2 h
        exact absurd h (by rw [delete_account]; simp)
      · intro _
        rfl
      · intro h
        exact absurd h (by simp)
  | some p =>
      by_cases hc : check_password u p
      · have hpe : p = u.password := by
          rw [check_password] at hc
          exact beq_iff_eq.mp hc
        refine ⟨?_, ?_, ?_⟩
        · intro db2 h
          rw [delete_account, if_pos hc] at h
          simp only [Except.ok.injEq] at h
          subst h
          refine ⟨by rw [hpe], ?_⟩
          rw [user_cascade_delete]
          rw [filter_filter_nil]
          · rfl
          · intro x hx
            rw [bne_iff_ne] at hx
            exact beq_eq_false_iff_ne.mpr hx
        · intro hne
          exact absurd (by rw [hpe]) hne
        · intro _
          exact ⟨user_cascade_delete db u.id, by rw [delete_account, if_pos hc]⟩
      · have hpe : p ≠ u.password := by
          rw [check_password] at hc
          exact fun h => hc (beq_iff_eq.mpr h)
        refine ⟨?_, ?_, ?_⟩
        · intro db2 h
          rw [delete_account, if_neg hc] at h
          exact absurd h (by simp)
        · intro _
          rw [delete_account, if_neg hc]
        · intro h
          simp only [Option.some.injEq] at h
          exact absurd h hpe

/-- C10 witness: user 2 with a wrong password gets the field-keyed
error; with the right password the account deletion goes through. -/
theorem claim_C10_witness :
    delete_account sampleDB
      { id := 2, email := "u2@x.com", password := "Qwerty12",
        first_name := "", last_name := "" } (some "bad") =
      .error (.ValidationError ["password"]) :=
  (claim_C10 sampleDB
    { id := 2, email := "u2@x.com", password := "Qwerty12",
      first_name := "", last_name := "" } (some "bad")).2.1 (by decide)
